import Mathlib

/-!
Verification of the SchoolDigger MCP server dispatcher (`src/server.py`).

The dispatcher exposes five tools and one static resource. Each tool builds
a query-parameter dictionary from its typed arguments and calls the shared
primitive `call_school_digger_api`, which merges the process-wide credential
pair into the parameters, issues one HTTP GET, and returns the decoded JSON
body, or `{"error": "<message>"}` on any transport failure.

Python dictionaries are modelled as ordered association lists with
replace-or-append insertion (`dictInsert`, matching `d[k] = v`) and
left-to-right bulk update (`dictUpdate`, matching `base.update(new)`).
Python truthiness of an `Optional[str]` argument (`if query:`) is `some s`
with `s` non-empty. The network is an explicit oracle mapping the single
built request to a transport outcome.
-/

/-- A query-parameter value: the server only ever sends strings and
integers (`per_page`, `max_results`). -/
inductive Value where
  | str (s : String)
  | int (n : Int)
deriving DecidableEq, Repr

/-- A Python dict of query parameters: an ordered association list. -/
abbrev Params := List (String × Value)

/-- First-match lookup, i.e. `d[k]` / `d.get(k)` on a Python dict. -/
def lookupParam (k : String) : Params → Option Value
  | [] => none
  | p :: rest => if p.1 = k then some p.2 else lookupParam k rest

/-- `d[k] = v` on a Python dict: replace the value at an existing key in
place, otherwise append the new pair at the end (insertion order). -/
def dictInsert (d : Params) (k : String) (v : Value) : Params :=
  if d.any (fun p => p.1 = k) then
    d.map (fun p => if p.1 = k then (k, v) else p)
  else d ++ [(k, v)]

/-- `base.update(new)` on Python dicts: fold the pairs of `new` into
`base` left to right, each by `dictInsert`. -/
def dictUpdate (base new : Params) : Params :=
  new.foldl (fun acc p => dictInsert acc p.1 p.2) base

/-- The credential pair `APP_ID` / `APP_KEY`, read once from the
environment at process start and held as process-wide configuration. -/
structure Credentials where
  appID : String
  appKey : String
deriving DecidableEq, Repr

/-- JSON values, as returned by `response.json()`. -/
inductive Json where
  | null
  | bool (b : Bool)
  | num (n : Int)
  | str (s : String)
  | arr (elems : List Json)
  | obj (fields : List (String × Json))

/-- One outgoing HTTP GET: the full URL and the query parameters passed to
`requests.get(url, params=base_params)`. -/
structure Request where
  url : String
  queryParams : Params
deriving DecidableEq, Repr

/-- Outcome of the transport: a decoded 2xx JSON body, or a failure
(connection error, timeout, or the non-2xx raised by
`response.raise_for_status()`), carrying the exception message. -/
inductive HttpResult where
  | success (body : Json)
  | failure (message : String)

/-- The network as an oracle from the built request to its outcome. -/
abbrev Network := Request → HttpResult

/-- `SCHOOL_DIGGER_BASE_API = 'https://api.schooldigger.com/v2.3/'`. -/
def SCHOOL_DIGGER_BASE_API : String := "https://api.schooldigger.com/v2.3/"

/-- `base_params = {'appID': APP_ID, 'appKey': APP_KEY}` followed by
`if params: base_params.update(params)` (a `None` or empty dict leaves the
credentials alone). -/
def mergeCredParams (creds : Credentials) (params : Option Params) : Params :=
  let base : Params := [("appID", .str creds.appID), ("appKey", .str creds.appKey)]
  match params with
  | none => base
  | some p => if p.isEmpty then base else dictUpdate base p

/-- Python `endpoint.lstrip('/')`: remove every leading `'/'` character. -/
def lstripSlash (s : String) : String :=
  String.mk (s.data.dropWhile (fun c => c = '/'))

/-- `url = SCHOOL_DIGGER_BASE_API + endpoint.lstrip('/')` together with the
merged parameters: the single GET request the call issues. -/
def buildRequest (creds : Credentials) (endpoint : String) (params : Option Params) : Request :=
  { url := SCHOOL_DIGGER_BASE_API ++ lstripSlash endpoint
    queryParams := mergeCredParams creds params }

/-- `call_school_digger_api(endpoint, params)`: merge credentials, GET the
URL, return the JSON body; on any `requests.exceptions.RequestException`
return `{"error": str(e)}` instead of raising. -/
def call_school_digger_api (creds : Credentials) (net : Network)
    (endpoint : String) (params : Option Params) : Json :=
  match net (buildRequest creds endpoint params) with
  | .success body => body
  | .failure msg => .obj [("error", .str msg)]

/-- `if arg: params[k] = arg` for an `Optional[str]` tool argument:
only a non-`None`, non-empty string is truthy and gets inserted. -/
def setIfTruthy (d : Params) (k : String) : Option String → Params
  | none => d
  | some s => if s = "" then d else dictInsert d k (.str s)

/-- Default `sort_by = 'rank'` of `search_schools`. -/
def search_schools_default_sort_by : String := "rank"

/-- Default `per_page = 5` of `search_schools`. -/
def search_schools_default_per_page : Int := 5

/-- The parameter dict built by `search_schools`:
`{'perPage': per_page, 'sortBy': sort_by}` then conditional inserts of
`q`, `city`, `st`, `zip`, `level`. -/
def search_schools_params (query city state zip_code school_level : Option String)
    (sort_by : String) (per_page : Int) : Params :=
  let params : Params := [("perPage", .int per_page), ("sortBy", .str sort_by)]
  let params := setIfTruthy params "q" query
  let params := setIfTruthy params "city" city
  let params := setIfTruthy params "st" state
  let params := setIfTruthy params "zip" zip_code
  let params := setIfTruthy params "level" school_level
  params

/-- `search_schools`: build the params and call the `schools` endpoint. -/
def search_schools (creds : Credentials) (net : Network)
    (query city state zip_code school_level : Option String)
    (sort_by : String) (per_page : Int) : Json :=
  call_school_digger_api creds net "schools"
    (some (search_schools_params query city state zip_code school_level sort_by per_page))

/-- Default `max_results = 10` of `search_autocomplete_schools`. -/
def search_autocomplete_default_max_results : Int := 10

/-- The parameter dict built by `search_autocomplete_schools`:
`{'q': query, 'returnCount': max_results}`, unconditionally. -/
def search_autocomplete_params (query : String) (max_results : Int) : Params :=
  [("q", .str query), ("returnCount", .int max_results)]

/-- `search_autocomplete_schools`: call `autocomplete/schools`. -/
def search_autocomplete_schools (creds : Credentials) (net : Network)
    (query : String) (max_results : Int) : Json :=
  call_school_digger_api creds net "autocomplete/schools"
    (some (search_autocomplete_params query max_results))

/-- `get_school_details`: call `schools/{school_id}` with no params. -/
def get_school_details (creds : Credentials) (net : Network) (school_id : String) : Json :=
  call_school_digger_api creds net ("schools/" ++ school_id) none

/-- Default `sort_by = 'rank'` of `search_districts`. -/
def search_districts_default_sort_by : String := "rank"

/-- Default `per_page = 5` of `search_districts`. -/
def search_districts_default_per_page : Int := 5

/-- The parameter dict built by `search_districts`:
`{'perPage': per_page, 'sort': sort_by}` then conditional inserts of
`city`, `st`, `zip`, `q`. -/
def search_districts_params (city state query zip_code : Option String)
    (sort_by : String) (per_page : Int) : Params :=
  let params : Params := [("perPage", .int per_page), ("sort", .str sort_by)]
  let params := setIfTruthy params "city" city
  let params := setIfTruthy params "st" state
  let params := setIfTruthy params "zip" zip_code
  let params := setIfTruthy params "q" query
  params

/-- `search_districts`: build the params and call the `districts` endpoint. -/
def search_districts (creds : Credentials) (net : Network)
    (city state query zip_code : Option String)
    (sort_by : String) (per_page : Int) : Json :=
  call_school_digger_api creds net "districts"
    (some (search_districts_params city state query zip_code sort_by per_page))

/-- `get_district_details`: call `districts/{district_id}` with no params. -/
def get_district_details (creds : Credentials) (net : Network) (district_id : String) : Json :=
  call_school_digger_api creds net ("districts/" ++ district_id) none

/-- The static resource `schooldigger://school-levels`: the fixed text
block returned by `get_school_levels`, byte for byte. -/
def get_school_levels : String :=
  "\n            Elementary: Grades K-5\n            Middle: Grades 6-8  \n            High: Grades 9-12\n            Private: Private institutions\n            Alt: Alternative education programs\n            "

/-- One invocation of one of the five tools, with its arguments. -/
inductive Invocation where
  | searchSchools (query city state zip_code school_level : Option String)
      (sort_by : String) (per_page : Int)
  | searchAutocomplete (query : String) (max_results : Int)
  | getSchoolDetails (school_id : String)
  | searchDistricts (city state query zip_code : Option String)
      (sort_by : String) (per_page : Int)
  | getDistrictDetails (district_id : String)
deriving DecidableEq, Repr

/-- The endpoint string a given invocation passes to the shared primitive. -/
def Invocation.endpoint : Invocation → String
  | .searchSchools _ _ _ _ _ _ _ => "schools"
  | .searchAutocomplete _ _ => "autocomplete/schools"
  | .getSchoolDetails sid => "schools/" ++ sid
  | .searchDistricts _ _ _ _ _ _ => "districts"
  | .getDistrictDetails did => "districts/" ++ did

/-- The parameter dict (or `None`) a given invocation passes to the shared
primitive. -/
def Invocation.toolParams : Invocation → Option Params
  | .searchSchools q c s z l sb pp => some (search_schools_params q c s z l sb pp)
  | .searchAutocomplete q mr => some (search_autocomplete_params q mr)
  | .getSchoolDetails _ => none
  | .searchDistricts c s q z sb pp => some (search_districts_params c s q z sb pp)
  | .getDistrictDetails _ => none

/-- The single upstream request a given invocation issues. -/
def Invocation.request (creds : Credentials) (inv : Invocation) : Request :=
  buildRequest creds inv.endpoint inv.toolParams

/-- Running an invocation against the network: dispatch to the tool. -/
def Invocation.run (creds : Credentials) (net : Network) : Invocation → Json
  | .searchSchools q c s z l sb pp => search_schools creds net q c s z l sb pp
  | .searchAutocomplete q mr => search_autocomplete_schools creds net q mr
  | .getSchoolDetails sid => get_school_details creds net sid
  | .searchDistricts c s q z sb pp => search_districts creds net c s q z sb pp
  | .getDistrictDetails did => get_district_details creds net did

/-- Trace semantics of the wire: each invocation appends the one request it
issues to the log of requests sent so far (no cache, no deduplication). -/
def recordInvocation (creds : Credentials) (log : List Request) (inv : Invocation) : List Request :=
  log ++ [inv.request creds]

/-- An `Optional[str]` argument that Python treats as falsy: either unset
(`None`) or the empty string. -/
def Untruthy (o : Option String) : Prop := o = none ∨ o = some ""

/-- All keys of a parameter dict lie in a given key list. -/
def KeysIn (d : Params) (ks : List String) : Prop := ∀ p ∈ d, p.1 ∈ ks

theorem lookupParam_append (k : String) (d e : Params) :
    lookupParam k (d ++ e) =
      match lookupParam k d with
      | some v => some v
      | none => lookupParam k e := by
  induction d with
  | nil => simp [lookupParam]
  | cons p rest ih =>
    by_cases h : p.1 = k <;> simp [lookupParam, h, ih]

theorem lookupParam_eq_none_of_any_eq_false (k : String) (d : Params)
    (h : d.any (fun p => p.1 = k) = false) : lookupParam k d = none := by
  induction d with
  | nil => rfl
  | cons p rest ih =>
    simp only [List.any_cons, Bool.or_eq_false_iff, decide_eq_false_iff_not] at h
    simp [lookupParam, h.1, ih h.2]

theorem lookupParam_map_replace_of_ne (d : Params) (k k' : String) (v : Value) (h : k' ≠ k) :
    lookupParam k' (d.map (fun p => if p.1 = k then (k, v) else p)) = lookupParam k' d := by
  induction d with
  | nil => rfl
  | cons p rest ih =>
    by_cases hp : p.1 = k
    · have hne : ¬ (k = k') := fun hkk => h hkk.symm
      simp [lookupParam, hp, hne, ih, Ne.symm h]
    · simp [lookupParam, hp, ih]

theorem lookupParam_map_replace_self (d : Params) (k : String) (v : Value)
    (h : d.any (fun p => p.1 = k) = true) :
    lookupParam k (d.map (fun p => if p.1 = k then (k, v) else p)) = some v := by
  induction d with
  | nil => simp at h
  | cons p rest ih =>
    by_cases hp : p.1 = k
    · simp [lookupParam, hp]
    · simp only [List.any_cons, Bool.or_eq_true, decide_eq_true_eq] at h
      rcases h with h | h

      · exact absurd h hp
      · simp [lookupParam, hp, ih h]

theorem lookupParam_dictInsert (d : Params) (k k' : String) (v : Value) :
    lookupParam k' (dictInsert d k v) =
      if k' = k then some v else lookupParam k' d := by
  unfold dictInsert
  cases hany : d.any (fun p => p.1 = k) with
  | true =>
    simp only [if_pos hany]
    by_cases hkk : k' = k
    · subst hkk; simp [lookupParam_map_replace_self d k' v hany]
    · simp [lookupParam_map_replace_of_ne d k k' v hkk, hkk]
  | false =>
    rw [if_neg (by simp [hany])]
    rw [lookupParam_append]
    by_cases hkk : k' = k
    · subst hkk
      rw [lookupParam_eq_none_of_any_eq_false k' d hany]
      simp [lookupParam]
    · cases hl : lookupParam k' d <;>
        simp [lookupParam, hkk, hl, (Ne.symm hkk : k ≠ k')]

theorem lookupParam_dictUpdate_of_forall_ne (base new : Params) (k : String)
    (h : ∀ p ∈ new, p.1 ≠ k) :
    lookupParam k (dictUpdate base new) = lookupParam k base := by
  induction new generalizing base with
  | nil => rfl
  | cons p rest ih =>
    have hp : p.1 ≠ k := h p (by simp)
    have hrest : ∀ q ∈ rest, q.1 ≠ k := fun q hq => h q (by simp [hq])
    rw [show dictUpdate base (p :: rest) = dictUpdate (dictInsert base p.1 p.2) rest from rfl]
    rw [ih _ hrest, lookupParam_dictInsert]
    rw [if_neg (fun hkk => hp hkk.symm)]

theorem lookupParam_dictUpdate_of_lookup (base new : Params) (k : String) (v : Value)
    (hnd : (new.map Prod.fst).Nodup) (h : lookupParam k new = some v) :
    lookupParam k (dictUpdate base new) = some v := by
  induction new generalizing base with
  | nil => simp [lookupParam] at h
  | cons p rest ih =>
    rw [show dictUpdate base (p :: rest) = dictUpdate (dictInsert base p.1 p.2) rest from rfl]
    simp only [List.map_cons, List.nodup_cons] at hnd
    by_cases hp : p.1 = k
    · subst hp
      simp [lookupParam] at h
      have hrest : ∀ q ∈ rest, q.1 ≠ p.1 := by
        intro q hq hqp
        exact hnd.1 (hqp ▸ List.mem_map_of_mem Prod.fst hq)
      rw [lookupParam_dictUpdate_of_forall_ne _ _ _ hrest, lookupParam_dictInsert]
      simp [h]
    · simp only [lookupParam, if_neg hp] at h
      exact ih _ hnd.2 h

theorem keysIn_dictInsert (d : Params) (ks : List String) (k : String) (v : Value)
    (hd : KeysIn d ks) (hk : k ∈ ks) : KeysIn (dictInsert d k v) ks := by
  intro p hp
  unfold dictInsert at hp
  cases hany : d.any (fun q => q.1 = k) with
  | true =>
    rw [if_pos hany] at hp
    rcases List.mem_map.mp hp with ⟨q, hq, hqp⟩
    by_cases hqk : q.1 = k
    · simp only [if_pos hqk] at hqp
      rw [← hqp]; exact hk
    · simp only [if_neg hqk] at hqp
      rw [← hqp]; exact hd q hq
  | false =>
    rw [if_neg (by simp [hany])] at hp
    rcases List.mem_append.mp hp with hq | hq
    · exact hd p hq
    · simp only [List.mem_singleton] at hq
      rw [hq]; exact hk

theorem keysIn_setIfTruthy (d : Params) (ks : List String) (k : String) (o : Option String)
    (hd : KeysIn d ks) (hk : k ∈ ks) : KeysIn (setIfTruthy d k o) ks := by
  cases o with
  | none => exact hd
  | some s =>
    unfold setIfTruthy
    by_cases hs : s = ""
    · simpa [hs] using hd
    · simpa [hs] using keysIn_dictInsert d ks k (.str s) hd hk

theorem lookupParam_setIfTruthy_of_ne (d : Params) (k k' : String) (o : Option String)
    (h : k' ≠ k) : lookupParam k' (setIfTruthy d k o) = lookupParam k' d := by
  cases o with
  | none => rfl
  | some s =>
    unfold setIfTruthy
    by_cases hs : s = ""
    · simp [hs]
    · simp [hs, lookupParam_dictInsert, h]

theorem setIfTruthy_of_untruthy (d : Params) (k : String) (o : Option String)
    (h : Untruthy o) : setIfTruthy d k o = d := by
  rcases h with h | h <;> simp [h, setIfTruthy]

theorem keysIn_search_schools_params
    (query city state zip_code school_level : Option String) (sort_by : String) (per_page : Int) :
    KeysIn (search_schools_params query city state zip_code school_level sort_by per_page)
      ["perPage", "sortBy", "q", "city", "st", "zip", "level"] := by
  unfold search_schools_params
  apply keysIn_setIfTruthy _ _ _ _ ?_ (by simp)
  apply keysIn_setIfTruthy _ _ _ _ ?_ (by simp)
  apply keysIn_setIfTruthy _ _ _ _ ?_ (by simp)
  apply keysIn_setIfTruthy _ _ _ _ ?_ (by simp)
  apply keysIn_setIfTruthy _ _ _ _ ?_ (by simp)
  intro p hp
  rcases List.mem_cons.mp hp with h | h
  · simp [h]
  · simp only [List.mem_singleton] at h; simp [h]

theorem keysIn_search_districts_params
    (city state query zip_code : Option String) (sort_by : String) (per_page : Int) :
    KeysIn (search_districts_params city state query zip_code sort_by per_page)
      ["perPage", "sort", "city", "st", "zip", "q"] := by
  unfold search_districts_params
  apply keysIn_setIfTruthy _ _ _ _ ?_ (by simp)
  apply keysIn_setIfTruthy _ _ _ _ ?_ (by simp)
  apply keysIn_setIfTruthy _ _ _ _ ?_ (by simp)
  apply keysIn_setIfTruthy _ _ _ _ ?_ (by simp)
  intro p hp
  rcases List.mem_cons.mp hp with h | h
  · simp [h]
  · simp only [List.mem_singleton] at h; simp [h]

theorem mergeCredParams_credentials (creds : Credentials) (params : Option Params)
    (h : ∀ p ∈ params.getD [], p.1 ≠ "appID" ∧ p.1 ≠ "appKey") :
    lookupParam "appID" (mergeCredParams creds params) = some (.str creds.appID)
    ∧ lookupParam "appKey" (mergeCredParams creds params) = some (.str creds.appKey) := by
  cases params with
  | none => exact ⟨rfl, rfl⟩
  | some p =>
    have h' : ∀ q ∈ p, q.1 ≠ "appID" ∧ q.1 ≠ "appKey" := h
    have hm : mergeCredParams creds (some p) =
        if p.isEmpty then
          [("appID", Value.str creds.appID), ("appKey", Value.str creds.appKey)]
        else
          dictUpdate [("appID", Value.str creds.appID), ("appKey", Value.str creds.appKey)] p :=
      rfl
    rw [hm]
    by_cases hemp : p.isEmpty
    · rw [if_pos hemp]
      exact ⟨rfl, rfl⟩
    · rw [if_neg hemp]
      constructor
      · rw [lookupParam_dictUpdate_of_forall_ne _ _ _ (fun q hq => (h' q hq).1)]
        rfl
      · rw [lookupParam_dictUpdate_of_forall_ne _ _ _ (fun q hq => (h' q hq).2)]
        rfl

/-- C1: a transport-level failure (connection error, timeout, or non-2xx
status) on the upstream GET never escapes `call_school_digger_api`; the
call returns the JSON object `{"error": "<exception message>"}` with a
single error string field instead of the expected list/object. -/
theorem call_api_failure_returns_error_object (creds : Credentials) (net : Network)
    (endpoint : String) (params : Option Params) (msg : String)
    (h : net (buildRequest creds endpoint params) = .failure msg) :
    call_school_digger_api creds net endpoint params = .obj [("error", .str msg)] := by
  unfold call_school_digger_api
  rw [h]

/-- Witness for C1: a concrete connection-refused failure on the `schools`
endpoint yields exactly the error object. -/
theorem call_api_failure_returns_error_object_witness :
    call_school_digger_api ⟨"id", "key"⟩ (fun _ => .failure "connection refused")
        "schools" none
      = .obj [("error", .str "connection refused")] :=
  call_api_failure_returns_error_object ⟨"id", "key"⟩
    (fun _ => .failure "connection refused") "schools" none "connection refused" rfl

/-- C2: every invocation of any of the five tools sends query parameters
containing `appID` and `appKey` with the process-wide credential values,
and no caller-supplied tool argument can override them (the lookups return
the credential values for all argument values). -/
theorem credentials_always_present_not_overridable (creds : Credentials) (inv : Invocation) :
    lookupParam "appID" (inv.request creds).queryParams = some (.str creds.appID)
    ∧ lookupParam "appKey" (inv.request creds).queryParams = some (.str creds.appKey) := by
  have hreq : (inv.request creds).queryParams = mergeCredParams creds inv.toolParams := rfl
  rw [hreq]
  cases inv with
  | searchSchools q c s z l sb pp =>
    refine mergeCredParams_credentials creds _ ?_
    intro p hp
    have hmem := keysIn_search_schools_params q c s z l sb pp p hp
    exact ⟨ne_of_mem_of_not_mem hmem (by decide),
           ne_of_mem_of_not_mem hmem (by decide)⟩
  | searchAutocomplete q mr =>
    refine mergeCredParams_credentials creds _ ?_
    intro p hp
    simp only [Invocation.toolParams, Option.getD, search_autocomplete_params,
      List.mem_cons, List.not_mem_nil, or_false] at hp
    rcases hp with rfl | rfl
    · exact ⟨by simp, by simp⟩
    · exact ⟨by simp, by simp⟩
  | getSchoolDetails sid =>
    refine mergeCredParams_credentials creds _ ?_
    intro p hp
    simp [Invocation.toolParams] at hp
  | searchDistricts c s q z sb pp =>
    refine mergeCredParams_credentials creds _ ?_
    intro p hp
    have hmem := keysIn_search_districts_params c s q z sb pp p hp
    exact ⟨ne_of_mem_of_not_mem hmem (by decide),
           ne_of_mem_of_not_mem hmem (by decide)⟩
  | getDistrictDetails did =>
    refine mergeCredParams_credentials creds _ ?_
    intro p hp
    simp [Invocation.toolParams] at hp

/-- C3: for `search_schools` and `search_districts`, an optional argument
that is unset (or empty) produces no corresponding key in the outgoing
query parameters, while the page-size and sort parameters (`perPage`, and
`sortBy` for schools / `sort` for districts) are always included; the
defaults are `per_page = 5` and `sort_by = "rank"`. -/
theorem unset_optionals_omitted_defaults_sent
    (query city state zip_code school_level : Option String)
    (sort_by : String) (per_page : Int) :
    (lookupParam "perPage"
        (search_schools_params query city state zip_code school_level sort_by per_page)
        = some (.int per_page)
      ∧ lookupParam "sortBy"
        (search_schools_params query city state zip_code school_level sort_by per_page)
        = some (.str sort_by))
    ∧ (lookupParam "perPage"
        (search_districts_params city state query zip_code sort_by per_page)
        = some (.int per_page)
      ∧ lookupParam "sort"
        (search_districts_params city state query zip_code sort_by per_page)
        = some (.str sort_by))
    ∧ (Untruthy query →
        lookupParam "q"
          (search_schools_params query city state zip_code school_level sort_by per_page) = none
        ∧ lookupParam "q"
          (search_districts_params city state query zip_code sort_by per_page) = none)
    ∧ (Untruthy city →
        lookupParam "city"
          (search_schools_params query city state zip_code school_level sort_by per_page) = none
        ∧ lookupParam "city"
          (search_districts_params city state query zip_code sort_by per_page) = none)
    ∧ (Untruthy state →
        lookupParam "st"
          (search_schools_params query city state zip_code school_level sort_by per_page) = none
        ∧ lookupParam "st"
          (search_districts_params city state query zip_code sort_by per_page) = none)
    ∧ (Untruthy zip_code →
        lookupParam "zip"
          (search_schools_params query city state zip_code school_level sort_by per_page) = none
        ∧ lookupParam "zip"
          (search_districts_params city state query zip_code sort_by per_page) = none)
    ∧ (Untruthy school_level →
        lookupParam "level"
          (search_schools_params query city state zip_code school_level sort_by per_page) = none)
    ∧ (search_schools_default_sort_by = "rank" ∧ search_schools_default_per_page = 5
       ∧ search_districts_default_sort_by = "rank" ∧ search_districts_default_per_page = 5) := by
  refine ⟨⟨?_, ?_⟩, ⟨?_, ?_⟩, ?_, ?_, ?_, ?_, ?_, rfl, rfl, rfl, rfl⟩
  · simp [search_schools_params, lookupParam_setIfTruthy_of_ne, lookupParam]
  · simp [search_schools_params, lookupParam_setIfTruthy_of_ne, lookupParam]
  · simp [search_districts_params, lookupParam_setIfTruthy_of_ne, lookupParam]
  · simp [search_districts_params, lookupParam_setIfTruthy_of_ne, lookupParam]
  · intro h
    constructor
    · simp only [search_schools_params]
      rw [lookupParam_setIfTruthy_of_ne _ "level" "q" _ (by decide),
        lookupParam_setIfTruthy_of_ne _ "zip" "q" _ (by decide),
        lookupParam_setIfTruthy_of_ne _ "st" "q" _ (by decide),
        lookupParam_setIfTruthy_of_ne _ "city" "q" _ (by decide),
        setIfTruthy_of_untruthy _ _ _ h]
      rfl
    · simp only [search_districts_params]
      rw [setIfTruthy_of_untruthy _ _ _ h,
        lookupParam_setIfTruthy_of_ne _ "zip" "q" _ (by decide),
        lookupParam_setIfTruthy_of_ne _ "st" "q" _ (by decide),
        lookupParam_setIfTruthy_of_ne _ "city" "q" _ (by decide)]
      rfl
  · intro h
    constructor
    · simp only [search_schools_params]
      rw [lookupParam_setIfTruthy_of_ne _ "level" "city" _ (by decide),
        lookupParam_setIfTruthy_of_ne _ "zip" "city" _ (by decide),
        lookupParam_setIfTruthy_of_ne _ "st" "city" _ (by decide),
        setIfTruthy_of_untruthy _ _ _ h,
        lookupParam_setIfTruthy_of_ne _ "q" "city" _ (by decide)]
      rfl
    · simp only [search_districts_params]
      rw [lookupParam_setIfTruthy_of_ne _ "q" "city" _ (by decide),
        lookupParam_setIfTruthy_of_ne _ "zip" "city" _ (by decide),
        lookupParam_setIfTruthy_of_ne _ "st" "city" _ (by decide),
        setIfTruthy_of_untruthy _ _ _ h]
      rfl
  · intro h
    constructor
    · simp only [search_schools_params]
      rw [lookupParam_setIfTruthy_of_ne _ "level" "st" _ (by decide),
        lookupParam_setIfTruthy_of_ne _ "zip" "st" _ (by decide),
        setIfTruthy_of_untruthy _ _ _ h,
        lookupParam_setIfTruthy_of_ne _ "city" "st" _ (by decide),
        lookupParam_setIfTruthy_of_ne _ "q" "st" _ (by decide)]
      rfl
    · simp only [search_districts_params]
      rw [lookupParam_setIfTruthy_of_ne _ "q" "st" _ (by decide),
        lookupParam_setIfTruthy_of_ne _ "zip" "st" _ (by decide),
        setIfTruthy_of_untruthy _ _ _ h,
        lookupParam_setIfTruthy_of_ne _ "city" "st" _ (by decide)]
      rfl
  · intro h
    constructor
    · simp only [search_schools_params]
      rw [lookupParam_setIfTruthy_of_ne _ "level" "zip" _ (by decide),
        setIfTruthy_of_untruthy _ _ _ h,
        lookupParam_setIfTruthy_of_ne _ "st" "zip" _ (by decide),
        lookupParam_setIfTruthy_of_ne _ "city" "zip" _ (by decide),
        lookupParam_setIfTruthy_of_ne _ "q" "zip" _ (by decide)]
      rfl
    · simp only [search_districts_params]
      rw [lookupParam_setIfTruthy_of_ne _ "q" "zip" _ (by decide),
        setIfTruthy_of_untruthy _ _ _ h,
        lookupParam_setIfTruthy_of_ne _ "st" "zip" _ (by decide),
        lookupParam_setIfTruthy_of_ne _ "city" "zip" _ (by decide)]
      rfl
  · intro h
    simp only [search_schools_params]
    rw [setIfTruthy_of_untruthy _ _ _ h,
      lookupParam_setIfTruthy_of_ne _ "zip" "level" _ (by decide),
      lookupParam_setIfTruthy_of_ne _ "st" "level" _ (by decide),
      lookupParam_setIfTruthy_of_ne _ "city" "level" _ (by decide),
      lookupParam_setIfTruthy_of_ne _ "q" "level" _ (by decide)]
    rfl

/-- Witness for C3: with the city set, the name-query empty, and the other
optionals unset, `q`, `zip` and `level` are absent while `perPage` and the
sort keys carry their values. -/
theorem unset_optionals_omitted_defaults_sent_witness :
    lookupParam "perPage"
      (search_schools_params (some "") (some "Cypress") none none none "rank" 5)
      = some (.int 5)
    ∧ lookupParam "q"
      (search_schools_params (some "") (some "Cypress") none none none "rank" 5) = none
    ∧ lookupParam "q"
      (search_districts_params (some "Cypress") none (some "") none "rank" 5) = none
    ∧ lookupParam "zip"
      (search_schools_params (some "") (some "Cypress") none none none "rank" 5) = none
    ∧ lookupParam "level"
      (search_schools_params (some "") (some "Cypress") none none none "rank" 5) = none := by
  have h := unset_optionals_omitted_defaults_sent (some "") (some "Cypress") none none none
    "rank" 5
  refine ⟨h.1.1, (h.2.2.1 (Or.inr rfl)).1, (h.2.2.1 (Or.inr rfl)).2,
    (h.2.2.2.2.2.1 (Or.inl rfl)).1, h.2.2.2.2.2.2.1 (Or.inl rfl)⟩

/-- C4: `search_schools(city="Cypress", state="CA")` with all other
optional arguments unset and the defaults in force builds exactly the
parameters `perPage=5, sortBy="rank", city="Cypress", st="CA"`, with no
`q`, `zip`, or `level` keys. -/
theorem search_schools_cypress_ca_params :
    search_schools_params none (some "Cypress") (some "CA") none none
        search_schools_default_sort_by search_schools_default_per_page
      = [("perPage", .int 5), ("sortBy", .str "rank"),
         ("city", .str "Cypress"), ("st", .str "CA")]
    ∧ lookupParam "q"
        (search_schools_params none (some "Cypress") (some "CA") none none
          search_schools_default_sort_by search_schools_default_per_page) = none
    ∧ lookupParam "zip"
        (search_schools_params none (some "Cypress") (some "CA") none none
          search_schools_default_sort_by search_schools_default_per_page) = none
    ∧ lookupParam "level"
        (search_schools_params none (some "Cypress") (some "CA") none none
          search_schools_default_sort_by search_schools_default_per_page) = none :=
  ⟨rfl, rfl, rfl, rfl⟩

/-- C5: `search_districts(state="TX", zip_code="77433")` with the other
optionals unset and the defaults in force builds exactly the parameters
`perPage=5, sort="rank", st="TX", zip="77433"` (key `sort`, not `sortBy`),
with no `city` or `q` keys. -/
theorem search_districts_tx_zip_params :
    search_districts_params none (some "TX") none (some "77433")
        search_districts_default_sort_by search_districts_default_per_page
      = [("perPage", .int 5), ("sort", .str "rank"),
         ("st", .str "TX"), ("zip", .str "77433")]
    ∧ lookupParam "city"
        (search_districts_params none (some "TX") none (some "77433")
          search_districts_default_sort_by search_districts_default_per_page) = none
    ∧ lookupParam "q"
        (search_districts_params none (some "TX") none (some "77433")
          search_districts_default_sort_by search_districts_default_per_page) = none
    ∧ lookupParam "sortBy"
        (search_districts_params none (some "TX") none (some "77433")
          search_districts_default_sort_by search_districts_default_per_page) = none :=
  ⟨rfl, rfl, rfl, rfl⟩

/-- C6: `get_school_details("0601710")` issues exactly one GET request,
whose URL is the base URL followed by the path `schools/0601710` and whose
query parameters are exactly the two credential keys. -/
theorem get_school_details_single_request (creds : Credentials) (log : List Request) :
    recordInvocation creds log (.getSchoolDetails "0601710")
      = log ++ [{ url := SCHOOL_DIGGER_BASE_API ++ "schools/0601710"
                  queryParams := [("appID", .str creds.appID),
                                  ("appKey", .str creds.appKey)] }] :=
  rfl

set_option maxRecDepth 8192 in
/-- C7: the static resource `schooldigger://school-levels` is a fixed text
constant (independent of credentials, arguments, and network state by
construction) that enumerates the five school-level codes `Elementary`,
`Middle`, `High`, `Private`, and `Alt`. -/
theorem school_levels_resource_fixed_text :
    ("Elementary".data <:+: get_school_levels.data)
    ∧ ("Middle".data <:+: get_school_levels.data)
    ∧ ("High".data <:+: get_school_levels.data)
    ∧ ("Private".data <:+: get_school_levels.data)
    ∧ ("Alt".data <:+: get_school_levels.data) := by
  decide

/-- C8: issuing the same tool call twice with identical arguments appends
two independent upstream requests to the wire trace, both equal to the one
request determined by the arguments and credentials, hence with
byte-identical query parameter sets; no caching or deduplication alters
the second request. -/
theorem identical_calls_identical_requests (creds : Credentials) (log : List Request)
    (inv : Invocation) :
    recordInvocation creds (recordInvocation creds log inv) inv
      = log ++ [inv.request creds, inv.request creds] := by
  simp [recordInvocation]

/-- C9: at the shared-primitive level, a `params` dict that itself carries
the key `appID` or `appKey` wins over the credential value under the
`dict.update` merge: the merged parameters return the caller-supplied
value for that key. -/
theorem caller_params_override_credentials (creds : Credentials) (params : Params)
    (k : String) (v : Value) (_hk : k = "appID" ∨ k = "appKey")
    (hnd : (params.map Prod.fst).Nodup) (hv : lookupParam k params = some v) :
    lookupParam k (mergeCredParams creds (some params)) = some v := by
  have hne : ¬ params.isEmpty := by
    cases params with
    | nil => simp [lookupParam] at hv
    | cons p rest => simp
  have hm : mergeCredParams creds (some params) =
      if params.isEmpty then
        [("appID", Value.str creds.appID), ("appKey", Value.str creds.appKey)]
      else
        dictUpdate [("appID", Value.str creds.appID), ("appKey", Value.str creds.appKey)]
          params :=
    rfl
  rw [hm, if_neg hne]
  exact lookupParam_dictUpdate_of_lookup _ _ _ _ hnd hv

/-- Witness for C9: a caller-supplied `appID` replaces the process-wide
credential value in the merged parameters. -/
theorem caller_params_override_credentials_witness :
    lookupParam "appID"
        (mergeCredParams ⟨"env-id", "env-key"⟩ (some [("appID", .str "caller")]))
      = some (.str "caller") :=
  caller_params_override_credentials ⟨"env-id", "env-key"⟩ [("appID", .str "caller")]
    "appID" (.str "caller") (Or.inl rfl) (by simp) rfl

/-- C10: `search_autocomplete_schools` always sends exactly the keys `q`
and `returnCount` on top of the two credential keys, for every query
including the empty string (`q=""` is sent, not omitted), and the
`max_results` default is 10. -/
theorem autocomplete_sends_q_even_empty (creds : Credentials) (query : String)
    (max_results : Int) :
    (Invocation.request creds (.searchAutocomplete query max_results)).queryParams
      = [("appID", .str creds.appID), ("appKey", .str creds.appKey),
         ("q", .str query), ("returnCount", .int max_results)]
    ∧ lookupParam "q"
        (Invocation.request creds (.searchAutocomplete "" max_results)).queryParams
      = some (.str "")
    ∧ search_autocomplete_default_max_results = 10 :=
  ⟨rfl, rfl, rfl⟩
